import Mathlib

/-!
Shallow embedding of `src/assets/product-addon.js` (class `ProductAddon`).

The controller listens for `cart:update` DOM events and `submit` events on
cart-add forms.  Its mutable fields (`pendingAddons`, `isProcessingAddons`,
`processedEventIds`, `lastCartCountUpdate`) are modelled as a state record,
DOM reads as explicit inputs, and the asynchronous tail of `handleCartAdd`
(settle delay, network append, refresh) as a function from the state at the
first suspension point, the append outcome, the clock, and the cart-fetch
result to a final state plus an ordered trace of external effects.
-/

namespace ProductAddon

/-- `event.detail.data` of a `cart:update` event: `{ source, didError?, productId? }`.
`source` and `productId` may be absent (`undefined`); JavaScript string
truthiness is modelled separately. -/
structure EventData where
  source : Option String
  didError : Bool
  productId : Option String
  deriving DecidableEq, Repr

/-- `event.detail` of a `cart:update` event: `{ eventId?, data? }`. -/
structure EventDetail where
  eventId : Option String
  data : Option EventData
  deriving DecidableEq, Repr

/-- A `cart:update` DOM event; `detail` may be absent. -/
structure CartEvent where
  detail : Option EventDetail
  deriving DecidableEq, Repr

/-- The `.product-addon` container element's `data-` attributes
(`data-addon-product-id`, `data-addon-variant-id`, `data-addon-price`);
each may be absent from the markup. -/
structure AddonContainer where
  addonProductId : Option String
  addonVariantId : Option String
  addonPrice : Option String
  deriving DecidableEq, Repr

/-- A checked `[data-addon-checkbox]` element, reduced to the result of
`checkbox.closest('.product-addon')`: either its container element or none. -/
structure CheckedBox where
  container : Option AddonContainer
  deriving DecidableEq, Repr

/-- One captured add-on selection `{ productId, variantId, price }` as built
by `getCheckedAddons`; fields read from `dataset` may be absent. -/
structure AddonSelection where
  productId : Option String
  variantId : Option String
  price : Option String
  deriving DecidableEq, Repr

/-- One line item `{ id, quantity }` of the `/cart/add.js` request body. -/
structure CartItem where
  id : Option String
  quantity : Nat
  deriving DecidableEq, Repr

/-- The controller's instance fields (constructor, lines 8–11). -/
structure CtrlState where
  pendingAddons : Option (List AddonSelection)
  isProcessingAddons : Bool
  processedEventIds : List String
  lastCartCountUpdate : Nat
  deriving DecidableEq, Repr

/-- The state built by the constructor. -/
def initialState : CtrlState := ⟨none, false, [], 0⟩

/-- JavaScript truthiness of a possibly-absent string: `undefined` and the
empty string are falsy. -/
def truthyStr : Option String → Bool
  | none => false
  | some s => s != ""

/-- `event.detail && event.detail.data && event.detail.data.source`, the
source tag reached through the optional chain (used at lines 45 and 82). -/
def evSource (ev : CartEvent) : Option String :=
  match ev.detail with
  | none => none
  | some d =>
    match d.data with
    | none => none
    | some data => data.source

/-- `isAddToCartEvent` (lines 36–64): requires `detail` and `detail.data`,
source `'product-form-component'`, no `didError`, and a truthy `productId`. -/
def isAddToCartEvent (ev : CartEvent) : Bool :=
  match ev.detail with
  | none => false
  | some d =>
    match d.data with
    | none => false
    | some data =>
      if data.source != some "product-form-component" then false
      else if data.didError then false
      else if !truthyStr data.productId then false
      else true

/-- `getCheckedAddons` (lines 150–166): map each checked box to its
container's data attributes (or `null` when there is no `.product-addon`
ancestor), then filter out the `null` entries. -/
def getCheckedAddons (checked : List CheckedBox) : List AddonSelection :=
  (checked.map fun cb =>
    match cb.container with
    | some c => some (⟨c.addonProductId, c.addonVariantId, c.addonPrice⟩ : AddonSelection)
    | none => none).filterMap id

/-- `handleFormSubmit` (lines 66–76): read the checked add-ons; if none,
return leaving the state untouched, otherwise store them as the pending set. -/
def handleFormSubmit (s : CtrlState) (checked : List CheckedBox) : CtrlState :=
  let checkedAddons := getCheckedAddons checked
  if checkedAddons.length = 0 then s
  else { s with pendingAddons := some checkedAddons }

/-- Lines 104–113 of `handleCartAdd`: resolve
`this.pendingAddons || this.getCheckedAddons()` (an array, even empty, is
truthy, so a non-null pending set always wins), return if the resolved list
is empty, otherwise set the processing flag and hand the list to the
asynchronous tail. -/
def acceptAddons (s : CtrlState) (checked : List CheckedBox) :
    CtrlState × Option (List AddonSelection) :=
  let addonsToAdd := s.pendingAddons.getD (getCheckedAddons checked)
  if addonsToAdd.length = 0 then (s, none)
  else ({ s with isProcessingAddons := true }, some addonsToAdd)

/-- The synchronous prefix of `handleCartAdd` (lines 78–113), up to the
first `await`: own-event guard, re-entrancy guard, duplicate-event guard
with recording, add-on resolution, and flag set.  Returns the state at the
first suspension point and, when the run enters the critical section, the
resolved add-on list. -/
def handleCartAddSync (s : CtrlState) (ev : CartEvent) (checked : List CheckedBox) :
    CtrlState × Option (List AddonSelection) :=
  if evSource ev = some "product-addon" then (s, none)
  else if s.isProcessingAddons then (s, none)
  else
    match ev.detail with
    | none => acceptAddons s checked
    | some d =>
      match d.eventId with
      | none => acceptAddons s checked
      | some eid =>
        if eid = "" then acceptAddons s checked
        else if eid ∈ s.processedEventIds then (s, none)
        else acceptAddons { s with processedEventIds := s.processedEventIds ++ [eid] } checked

/-- Line 121–124: one `{ id: addon.variantId, quantity: 1 }` item per add-on. -/
def addonItems (addons : List AddonSelection) : List CartItem :=
  addons.map fun a => ⟨a.variantId, 1⟩

/-- Externally visible actions of the asynchronous tail of `handleCartAdd`,
in program order. -/
inductive Effect where
  | settleDelay (ms : Nat)
  | appendToCart (items : List CartItem)
  | scheduleEventIdPrune (ms : Nat)
  | emitCartUpdate (source : String)
  | fetchCart
  | setCountDisplays (count : Nat)
  | emitCountUpdated (count : Nat)
  | showError (msg : String)
  deriving DecidableEq, Repr

/-- `updateCartCount` (lines 241–281): skip entirely when called within
1000 ms of the last refresh; otherwise stamp the clock and fetch the cart
(`fetched` is the decoded `item_count`, or none when the fetch failed, in
which case the error is only logged). -/
def updateCartCount (s : CtrlState) (now : Nat) (fetched : Option Nat) :
    CtrlState × List Effect :=
  if now - s.lastCartCountUpdate < 1000 then (s, [])
  else
    let s1 := { s with lastCartCountUpdate := now }
    match fetched with
    | none => (s1, [Effect.fetchCart])
    | some n => (s1, [Effect.fetchCart, Effect.setCountDisplays n, Effect.emitCountUpdated n])

/-- `triggerCartRefresh` (lines 190–219): dispatch a self-tagged
`cart:update` event, then refresh the cart count. -/
def triggerCartRefresh (s : CtrlState) (now : Nat) (fetched : Option Nat) :
    CtrlState × List Effect :=
  let r := updateCartCount s now fetched
  (r.1, Effect.emitCartUpdate "product-addon" :: r.2)

/-- The message passed to `showErrorMessage` at line 143. -/
def ADDON_ERROR_MESSAGE : String := "Failed to add some add-on products to cart."

/-- The asynchronous tail of `handleCartAdd` (lines 115–147), entered with
the processing flag already set: settle delay, append call, and then either
the success path (clear pending set, schedule the processed-id prune,
refresh) or the catch path (show one error notification); the `finally`
clears the flag in both cases. -/
def handleCartAddRun (s : CtrlState) (addons : List AddonSelection) (appendOk : Bool)
    (now : Nat) (fetched : Option Nat) : CtrlState × List Effect :=
  if appendOk then
    let s1 := { s with pendingAddons := none }
    let r := triggerCartRefresh s1 now fetched
    ({ r.1 with isProcessingAddons := false },
      Effect.settleDelay 300 :: Effect.appendToCart (addonItems addons) ::
        Effect.scheduleEventIdPrune 5000 :: r.2)
  else
    ({ s with isProcessingAddons := false },
      [Effect.settleDelay 300, Effect.appendToCart (addonItems addons),
        Effect.showError ADDON_ERROR_MESSAGE])

/-- The installed `cart:update` listener (lines 21–26): `handleCartAdd`
runs only when `isAddToCartEvent` accepts the event.  Synchronous part. -/
def onCartUpdateSync (s : CtrlState) (ev : CartEvent) (checked : List CheckedBox) :
    CtrlState × Option (List AddonSelection) :=
  if isAddToCartEvent ev then handleCartAddSync s ev checked else (s, none)

/-- The whole handling of one `cart:update` event when no other callback
interleaves: synchronous prefix, then (on acceptance) the asynchronous tail. -/
def onCartUpdate (s : CtrlState) (ev : CartEvent) (checked : List CheckedBox)
    (appendOk : Bool) (now : Nat) (fetched : Option Nat) : CtrlState × List Effect :=
  match onCartUpdateSync s ev checked with
  | (s1, none) => (s1, [])
  | (s1, some addons) => handleCartAddRun s1 addons appendOk now fetched

/-- `setTimeout` duration of the notification removal (line 311). -/
def NOTIFICATION_TIMEOUT_MS : Nat := 5000

/-- `showErrorMessage` (lines 283–312), with `document.body`'s children as a
list of node identities: append one notification node and return the removal
delay scheduled for it. -/
def showErrorMessage (page : List Nat) (nid : Nat) : List Nat × Nat :=
  (page ++ [nid], NOTIFICATION_TIMEOUT_MS)

/-- The removal timer callback (lines 307–311): remove the node if it is
still attached (`if (notification.parentNode)`), otherwise do nothing. -/
def notificationTimeout (page : List Nat) (nid : Nat) : List Nat :=
  if nid ∈ page then page.erase nid else page

/-- Whether an effect is the user-visible error notification. -/
def isShowError : Effect → Bool
  | Effect.showError _ => true
  | _ => false

/-- Whether an effect is a `/cart/add.js` append request. -/
def isAppendEffect : Effect → Bool
  | Effect.appendToCart _ => true
  | _ => false

/-- The pending-set shape invariant: absent, or a non-empty list. -/
def pendingInv (s : CtrlState) : Prop :=
  match s.pendingAddons with
  | none => True
  | some l => l ≠ []

/-! ### Helper lemmas -/

theorem isAddToCartEvent_iff (ev : CartEvent) :
    isAddToCartEvent ev = true ↔
      ∃ d data, ev.detail = some d ∧ d.data = some data ∧
        data.source = some "product-form-component" ∧ data.didError = false ∧
        truthyStr data.productId = true := by
  cases hdet : ev.detail with
  | none => simp [isAddToCartEvent, hdet]
  | some d =>
    cases hdata : d.data with
    | none => simp [isAddToCartEvent, hdet, hdata]
    | some data =>
      by_cases h1 : data.source = some "product-form-component" <;>
        by_cases h2 : data.didError <;>
        by_cases h3 : truthyStr data.productId <;>
        simp [isAddToCartEvent, hdet, hdata, h1, h2, h3]

theorem evSource_of_isAdd {ev : CartEvent} (h : isAddToCartEvent ev = true) :
    evSource ev = some "product-form-component" := by
  rcases (isAddToCartEvent_iff ev).1 h with ⟨d, data, hd, hdata, hs, _, _⟩
  simp [evSource, hd, hdata, hs]

theorem acceptAddons_fst_pendingAddons (s : CtrlState) (checked : List CheckedBox) :
    (acceptAddons s checked).1.pendingAddons = s.pendingAddons := by
  unfold acceptAddons
  dsimp only
  split <;> rfl

theorem sync_of_flag (s : CtrlState) (ev : CartEvent) (checked : List CheckedBox)
    (h : s.isProcessingAddons = true) :
    handleCartAddSync s ev checked = (s, none) := by
  unfold handleCartAddSync
  by_cases h1 : evSource ev = some "product-addon" <;> simp [h1, h]

theorem handleCartAddSync_pending_eq (s : CtrlState) (ev : CartEvent)
    (checked : List CheckedBox) :
    (handleCartAddSync s ev checked).1.pendingAddons = s.pendingAddons := by
  unfold handleCartAddSync
  repeat' split
  all_goals simp [acceptAddons_fst_pendingAddons]

theorem onCartUpdateSync_pending_eq (s : CtrlState) (ev : CartEvent)
    (checked : List CheckedBox) :
    (onCartUpdateSync s ev checked).1.pendingAddons = s.pendingAddons := by
  unfold onCartUpdateSync
  split
  · exact handleCartAddSync_pending_eq s ev checked
  · rfl

theorem updateCartCount_pending_eq (s : CtrlState) (now : Nat) (fetched : Option Nat) :
    (updateCartCount s now fetched).1.pendingAddons = s.pendingAddons := by
  unfold updateCartCount
  dsimp only
  split
  · rfl
  · split <;> rfl

theorem pendingInv_of_eq {s t : CtrlState} (h : t.pendingAddons = s.pendingAddons)
    (hs : pendingInv s) : pendingInv t := by
  unfold pendingInv at hs ⊢
  rw [h]
  exact hs

theorem acceptAddons_fst_processed (s : CtrlState) (checked : List CheckedBox) :
    (acceptAddons s checked).1.processedEventIds = s.processedEventIds := by
  unfold acceptAddons
  dsimp only
  split <;> rfl

theorem acceptAddons_some_flag {s s1 : CtrlState} {checked : List CheckedBox}
    {addons : List AddonSelection}
    (h : acceptAddons s checked = (s1, some addons)) :
    s1.isProcessingAddons = true := by
  unfold acceptAddons at h
  dsimp only at h
  split at h
  · simp [Prod.ext_iff] at h
  · have h1 : ({ s with isProcessingAddons := true } : CtrlState) = s1 :=
      congrArg Prod.fst h
    rw [← h1]

theorem sync_some_flag {s s1 : CtrlState} {ev : CartEvent} {checked : List CheckedBox}
    {addons : List AddonSelection}
    (h : handleCartAddSync s ev checked = (s1, some addons)) :
    s1.isProcessingAddons = true := by
  unfold handleCartAddSync at h
  repeat' split at h
  all_goals first
    | exact acceptAddons_some_flag h
    | simp [Prod.ext_iff] at h

theorem onSync_some_flag {s s1 : CtrlState} {ev : CartEvent} {checked : List CheckedBox}
    {addons : List AddonSelection}
    (h : onCartUpdateSync s ev checked = (s1, some addons)) :
    s1.isProcessingAddons = true := by
  unfold onCartUpdateSync at h
  split at h
  · exact sync_some_flag h
  · simp [Prod.ext_iff] at h

theorem handleFormSubmit_store {s : CtrlState} {checked : List CheckedBox}
    (h : getCheckedAddons checked ≠ []) :
    handleFormSubmit s checked
      = { s with pendingAddons := some (getCheckedAddons checked) } := by
  unfold handleFormSubmit
  simp [List.length_eq_zero, h]

theorem handleFormSubmit_skip {s : CtrlState} {checked : List CheckedBox}
    (h : getCheckedAddons checked = []) :
    handleFormSubmit s checked = s := by
  unfold handleFormSubmit
  simp [h]

theorem acceptAddons_of_pend {s : CtrlState} {checked : List CheckedBox}
    {addons : List AddonSelection}
    (hpend : s.pendingAddons = some addons) (hne : addons ≠ []) :
    acceptAddons s checked = ({ s with isProcessingAddons := true }, some addons) := by
  unfold acceptAddons
  dsimp only
  simp [hpend, List.length_eq_zero, hne]

theorem sync_accept {s : CtrlState} {ev : CartEvent} {checked : List CheckedBox}
    {addons : List AddonSelection}
    (hacc : isAddToCartEvent ev = true)
    (hflag : s.isProcessingAddons = false)
    (hpend : s.pendingAddons = some addons)
    (hne : addons ≠ [])
    (hfresh : ∀ d eid, ev.detail = some d → d.eventId = some eid →
        eid ∉ s.processedEventIds) :
    ∃ s2, onCartUpdateSync s ev checked = (s2, some addons) := by
  have hsrc := evSource_of_isAdd hacc
  have hown : ¬(evSource ev = some "product-addon") := by
    rw [hsrc]; decide
  unfold onCartUpdateSync
  simp only [hacc, if_true]
  unfold handleCartAddSync
  rw [if_neg hown, if_neg (by simp [hflag])]
  cases hdet : ev.detail with
  | none => exact ⟨_, acceptAddons_of_pend hpend hne⟩
  | some d =>
    dsimp only
    cases heid : d.eventId with
    | none => exact ⟨_, acceptAddons_of_pend hpend hne⟩
    | some eid =>
      dsimp only
      by_cases hz : eid = ""
      · rw [if_pos hz]
        exact ⟨_, acceptAddons_of_pend hpend hne⟩
      · rw [if_neg hz, if_neg (hfresh d eid hdet heid)]
        exact ⟨_, acceptAddons_of_pend (by simp [hpend]) hne⟩

theorem updateCartCount_no_append (s : CtrlState) (now : Nat) (fetched : Option Nat) :
    (updateCartCount s now fetched).2.filter isAppendEffect = [] := by
  unfold updateCartCount
  dsimp only
  split
  · rfl
  · split <;> simp [isAppendEffect]

theorem run_append_effects (s : CtrlState) (addons : List AddonSelection)
    (appendOk : Bool) (now : Nat) (fetched : Option Nat) :
    (handleCartAddRun s addons appendOk now fetched).2.filter isAppendEffect
      = [Effect.appendToCart (addonItems addons)] := by
  unfold handleCartAddRun
  dsimp only
  split
  · simp [triggerCartRefresh, isAppendEffect, updateCartCount_no_append]
  · simp [isAppendEffect]

/-! ### Claims -/

/-- Claim C1, counterexample: a notification with idempotency identifier
`"evt-1"` whose source tag (`"quantity-update"`) does not identify the
primary product form.  The claim says such a notification is rejected at its
step 4 with its identifier already recorded at step 3; the code runs the
source/error/product-id checks first (in `isAddToCartEvent`, before
`handleCartAdd` is even called), so handling is a complete no-op and the
identifier is NOT recorded. -/
theorem C1_counterexample :
    onCartUpdateSync initialState
        ⟨some ⟨some "evt-1", some ⟨some "quantity-update", false, some "prod-1"⟩⟩⟩ []
      = (initialState, none)
    ∧ (onCartUpdateSync initialState
        ⟨some ⟨some "evt-1", some ⟨some "quantity-update", false, some "prod-1"⟩⟩⟩
        []).1.processedEventIds = [] := by
  constructor <;> decide

/-- Claim C1 (amended): the handler short-circuits, but with the payload
validity checks first: (i) a notification failing any of — detail/data
present, source tag identifies the primary product form, no error flag,
product identifier present — is rejected with no state change, no effect,
and in particular WITHOUT its idempotency identifier being recorded;
(ii) a valid notification is rejected unchanged when the ProcessingFlag is
set; (iii) then rejected unchanged when its identifier was already recorded;
(iv) otherwise its identifier is recorded at this point (whether or not the
run goes on to append). -/
theorem C1_check_order (s : CtrlState) (ev : CartEvent) (checked : List CheckedBox) :
    (isAddToCartEvent ev = false →
      ∀ appendOk now fetched, onCartUpdate s ev checked appendOk now fetched = (s, []))
    ∧ (isAddToCartEvent ev = true → s.isProcessingAddons = true →
        onCartUpdateSync s ev checked = (s, none))
    ∧ (∀ d eid, isAddToCartEvent ev = true → s.isProcessingAddons = false →
        ev.detail = some d → d.eventId = some eid → eid ≠ "" →
        eid ∈ s.processedEventIds → onCartUpdateSync s ev checked = (s, none))
    ∧ (∀ d eid, isAddToCartEvent ev = true → s.isProcessingAddons = false →
        ev.detail = some d → d.eventId = some eid → eid ≠ "" →
        eid ∉ s.processedEventIds →
        (onCartUpdateSync s ev checked).1.processedEventIds
          = s.processedEventIds ++ [eid]) := by
  refine ⟨?_, ?_, ?_, ?_⟩
  · intro hnot appendOk now fetched
    unfold onCartUpdate onCartUpdateSync
    simp [hnot]
  · intro hacc hflag
    unfold onCartUpdateSync
    simp only [hacc, if_true]
    exact sync_of_flag s ev checked hflag
  · intro d eid hacc hflag hd heid hne hmem
    have hsrc := evSource_of_isAdd hacc
    unfold onCartUpdateSync
    simp only [hacc, if_true]
    unfold handleCartAddSync
    rw [hsrc]
    simp [hd, heid, hne, hmem, hflag]
  · intro d eid hacc hflag hd heid hne hnew
    have hsrc := evSource_of_isAdd hacc
    unfold onCartUpdateSync
    simp only [hacc, if_true]
    unfold handleCartAddSync
    rw [hsrc]
    simp [hd, heid, hne, hnew, hflag, acceptAddons_fst_processed]

/-- Claim C1, witness: the amended recording rule at a concrete fresh
valid notification. -/
theorem C1_check_order_witness :
    (onCartUpdateSync initialState
        ⟨some ⟨some "evt-9", some ⟨some "product-form-component", false, some "p1"⟩⟩⟩
        []).1.processedEventIds = [] ++ ["evt-9"] := by
  have h := C1_check_order initialState
    ⟨some ⟨some "evt-9", some ⟨some "product-form-component", false, some "p1"⟩⟩⟩ []
  exact h.2.2.2 _ "evt-9" (by decide) rfl rfl rfl (by decide) (by simp [initialState])

/-- Claim C3: (i) whenever a notification is accepted into the critical
section, the state at the first suspension point already has the
ProcessingFlag set and the settle delay is the first effect of the
asynchronous tail; (ii) any notification handled while the flag is set
leaves the state untouched (so the flag stays as the first handling left
it) and produces no effect — in particular no append; (iii) the
asynchronous tail always ends with the flag cleared, on success and on
failure alike. -/
theorem C3_flag_guard (s : CtrlState) (ev : CartEvent) (checked : List CheckedBox)
    (appendOk : Bool) (now : Nat) (fetched : Option Nat) :
    (∀ s1 addons, onCartUpdateSync s ev checked = (s1, some addons) →
        s1.isProcessingAddons = true
        ∧ (handleCartAddRun s1 addons appendOk now fetched).2.head?
            = some (Effect.settleDelay 300))
    ∧ (s.isProcessingAddons = true →
        onCartUpdate s ev checked appendOk now fetched = (s, []))
    ∧ (∀ addons,
        (handleCartAddRun s addons appendOk now fetched).1.isProcessingAddons = false) := by
  refine ⟨?_, ?_, ?_⟩
  · intro s1 addons h
    refine ⟨onSync_some_flag h, ?_⟩
    unfold handleCartAddRun
    dsimp only
    split <;> rfl
  · intro hflag
    unfold onCartUpdate
    by_cases hacc : isAddToCartEvent ev
    · simp [onCartUpdateSync, hacc, sync_of_flag s ev checked hflag]
    · simp [onCartUpdateSync, hacc]
  · intro addons
    unfold handleCartAddRun
    dsimp only
    split <;> rfl

/-- Claim C3, witness: the three guarantees at a concrete accepted
notification with one pending add-on. -/
theorem C3_flag_guard_witness :
    ((⟨some [⟨some "p1", some "v1", some "5"⟩], true, [], 0⟩ : CtrlState).isProcessingAddons
        = true
      ∧ (handleCartAddRun ⟨some [⟨some "p1", some "v1", some "5"⟩], true, [], 0⟩
            [⟨some "p1", some "v1", some "5"⟩] true 0 none).2.head?
          = some (Effect.settleDelay 300))
    ∧ onCartUpdate ⟨some [⟨some "p1", some "v1", some "5"⟩], true, [], 0⟩
        ⟨some ⟨none, some ⟨some "product-form-component", false, some "p2"⟩⟩⟩ []
        true 0 none
      = (⟨some [⟨some "p1", some "v1", some "5"⟩], true, [], 0⟩, []) := by
  have h1 := C3_flag_guard (⟨some [⟨some "p1", some "v1", some "5"⟩], false, [], 0⟩ : CtrlState)
    ⟨some ⟨none, some ⟨some "product-form-component", false, some "p2"⟩⟩⟩ [] true 0 none
  have h2 := C3_flag_guard (⟨some [⟨some "p1", some "v1", some "5"⟩], true, [], 0⟩ : CtrlState)
    ⟨some ⟨none, some ⟨some "product-form-component", false, some "p2"⟩⟩⟩ [] true 0 none
  exact ⟨h1.1 ⟨some [⟨some "p1", some "v1", some "5"⟩], true, [], 0⟩
    [⟨some "p1", some "v1", some "5"⟩] (by decide), h2.2.1 rfl⟩

/-- Claim C9: the idempotency identifier is recorded before the resolved
add-on set is examined — an accepted notification whose resolved set is
empty performs no append yet still consumes its identifier, and a later
notification carrying the same identifier is rejected before the critical
section (no append), whatever add-ons are checked by then. -/
theorem C9_id_recorded_first (s : CtrlState) (ev ev2 : CartEvent)
    (d d2 : EventDetail) (eid : String) (checked checked2 : List CheckedBox)
    (hflag : s.isProcessingAddons = false)
    (hd : ev.detail = some d) (heid : d.eventId = some eid) (hne : eid ≠ "")
    (hnew : eid ∉ s.processedEventIds)
    (hacc : isAddToCartEvent ev = true)
    (hpend : s.pendingAddons = none)
    (hnochecked : getCheckedAddons checked = [])
    (hd2 : ev2.detail = some d2) (heid2 : d2.eventId = some eid) :
    onCartUpdateSync s ev checked
      = ({ s with processedEventIds := s.processedEventIds ++ [eid] }, none)
    ∧ (onCartUpdateSync { s with processedEventIds := s.processedEventIds ++ [eid] }
        ev2 checked2).2 = none := by
  have hsrc := evSource_of_isAdd hacc
  constructor
  · unfold onCartUpdateSync
    simp only [hacc, if_true]
    unfold handleCartAddSync
    rw [hsrc]
    simp [hd, heid, hne, hnew, hflag, acceptAddons, hpend, hnochecked]
  · have hmem : eid ∈ s.processedEventIds ++ [eid] := by simp
    by_cases hacc2 : isAddToCartEvent ev2
    · unfold onCartUpdateSync
      simp only [hacc2, if_true]
      unfold handleCartAddSync
      by_cases hsrc2 : evSource ev2 = some "product-addon"
      · simp [hsrc2]
      · simp [hsrc2, hflag, hd2, heid2, hne, hmem]
    · simp [onCartUpdateSync, hacc2]

/-- Claim C9, witness: a concrete empty-resolution notification consumes
identifier `"e1"`, and a re-delivery of `"e1"` with an add-on checked is
still rejected. -/
theorem C9_id_recorded_first_witness :
    onCartUpdateSync initialState
        ⟨some ⟨some "e1", some ⟨some "product-form-component", false, some "p1"⟩⟩⟩ []
      = ({ initialState with processedEventIds := [] ++ ["e1"] }, none)
    ∧ (onCartUpdateSync { initialState with processedEventIds := [] ++ ["e1"] }
        ⟨some ⟨some "e1", some ⟨some "product-form-component", false, some "p1"⟩⟩⟩
        [⟨some ⟨some "p9", some "v9", some "5"⟩⟩]).2 = none := by
  have h := C9_id_recorded_first initialState
    ⟨some ⟨some "e1", some ⟨some "product-form-component", false, some "p1"⟩⟩⟩
    ⟨some ⟨some "e1", some ⟨some "product-form-component", false, some "p1"⟩⟩⟩
    ⟨some "e1", some ⟨some "product-form-component", false, some "p1"⟩⟩
    ⟨some "e1", some ⟨some "product-form-component", false, some "p1"⟩⟩
    "e1" [] [⟨some ⟨some "p9", some "v9", some "5"⟩⟩]
    rfl rfl rfl (by decide) (by simp [initialState]) (by decide) rfl (by decide) rfl rfl
  exact h

/-- Claim C2, counterexample: a submission with zero checked selectors does
not replace the previous pending set — a selection captured at an earlier
submission is still pending afterwards, contradicting the claim that the
empty sequence is stored and nothing earlier remains pending. -/
theorem C2_counterexample :
    (handleFormSubmit ⟨some [⟨some "p0", some "v0", some "100"⟩], false, [], 0⟩ []).pendingAddons
      = some [⟨some "p0", some "v0", some "100"⟩] := by decide

/-- Claim C2 (amended): a submission stores the checked add-on selections,
replacing any previous pending set, only when at least one selector is
checked; a submission with zero checked selectors leaves the state — and in
particular any earlier pending set — unchanged. -/
theorem C2_capture (s : CtrlState) (checked : List CheckedBox) :
    (getCheckedAddons checked ≠ [] →
      handleFormSubmit s checked
        = { s with pendingAddons := some (getCheckedAddons checked) })
    ∧ (getCheckedAddons checked = [] → handleFormSubmit s checked = s) := by
  constructor
  · intro h
    unfold handleFormSubmit
    simp [List.length_eq_zero, h]
  · intro h
    unfold handleFormSubmit
    simp [h]

/-- Claim C2, witness: the amended capture rule at a concrete one-selection
submission. -/
theorem C2_capture_witness :
    handleFormSubmit initialState [⟨some ⟨some "p1", some "v1", some "5"⟩⟩]
      = { initialState with pendingAddons := some [⟨some "p1", some "v1", some "5"⟩] } := by
  have h := (C2_capture initialState [⟨some ⟨some "p1", some "v1", some "5"⟩⟩]).1 (by decide)
  exact h.trans (by decide)

/-- Claim C5, counterexample: a checked selector whose `.product-addon`
container carries none of the three data attributes is NOT dropped — an
entry (with all fields absent) appears in the captured sequence. -/
theorem C5_counterexample :
    getCheckedAddons [⟨some ⟨none, none, none⟩⟩] = [⟨none, none, none⟩] := by decide

/-- Claim C5 (amended): a checked selector is silently dropped exactly when
it has no `.product-addon` container element; when the container exists, an
entry is always produced — carrying absent fields when the data attributes
are missing — and no error is reported in either case. -/
theorem C5_drop_rule (cb : CheckedBox) (rest : List CheckedBox) :
    (cb.container = none → getCheckedAddons (cb :: rest) = getCheckedAddons rest)
    ∧ (∀ c, cb.container = some c →
        getCheckedAddons (cb :: rest)
          = ⟨c.addonProductId, c.addonVariantId, c.addonPrice⟩ :: getCheckedAddons rest) := by
  constructor
  · intro h
    simp [getCheckedAddons, h]
  · intro c h
    simp [getCheckedAddons, h]

/-- Claim C5, witness: the amended drop rule at a concrete containerless
selector. -/
theorem C5_drop_rule_witness :
    getCheckedAddons [(⟨none⟩ : CheckedBox)] = getCheckedAddons [] :=
  (C5_drop_rule ⟨none⟩ []).1 rfl

/-- Claim C6: handling a notification whose source tag is the controller's
own republishing tag `'product-addon'` changes no state field, makes no
network call and emits no event — the handler returns the state unchanged
with an empty effect trace. -/
theorem C6_own_tag_noop (s : CtrlState) (ev : CartEvent) (checked : List CheckedBox)
    (appendOk : Bool) (now : Nat) (fetched : Option Nat)
    (d : EventDetail) (data : EventData)
    (hd : ev.detail = some d) (hdata : d.data = some data)
    (hsrc : data.source = some "product-addon") :
    onCartUpdate s ev checked appendOk now fetched = (s, []) := by
  have hnot : isAddToCartEvent ev = false := by
    simp [isAddToCartEvent, hd, hdata, hsrc]
  unfold onCartUpdate onCartUpdateSync
  simp [hnot]

/-- Claim C6, witness: the no-op at a concrete self-tagged event. -/
theorem C6_own_tag_noop_witness :
    onCartUpdate initialState ⟨some ⟨none, some ⟨some "product-addon", false, none⟩⟩⟩ []
        true 0 none
      = (initialState, []) :=
  C6_own_tag_noop initialState _ [] true 0 none
    ⟨none, some ⟨some "product-addon", false, none⟩⟩
    ⟨some "product-addon", false, none⟩ rfl rfl rfl

/-- Claim C10: the pending set is always either absent or a non-empty
sequence — the constructor establishes the invariant, and submission
capture, notification handling, and the asynchronous tail (success and
failure alike) each preserve it. -/
theorem C10_pending_invariant (s : CtrlState) (hinv : pendingInv s) :
    pendingInv initialState
    ∧ (∀ checked, pendingInv (handleFormSubmit s checked))
    ∧ (∀ ev checked, pendingInv (onCartUpdateSync s ev checked).1)
    ∧ (∀ addons appendOk now fetched,
        pendingInv (handleCartAddRun s addons appendOk now fetched).1) := by
  refine ⟨by simp [pendingInv, initialState], ?_, ?_, ?_⟩
  · intro checked
    unfold handleFormSubmit
    dsimp only
    split
    · exact hinv
    · next h =>
      unfold pendingInv
      dsimp only
      intro hcon
      exact h (by simp [hcon])
  · intro ev checked
    exact pendingInv_of_eq (onCartUpdateSync_pending_eq s ev checked) hinv
  · intro addons appendOk now fetched
    unfold handleCartAddRun
    dsimp only
    split
    · unfold pendingInv
      have := updateCartCount_pending_eq { s with pendingAddons := none } now fetched
      simp [triggerCartRefresh, this]
    · exact pendingInv_of_eq rfl hinv

/-- Claim C10, witness: the invariant facts at a concrete state. -/
theorem C10_pending_invariant_witness :
    pendingInv (handleFormSubmit initialState []) := by
  have h := C10_pending_invariant initialState (by simp [pendingInv, initialState])
  exact h.2.1 []

/-- Claim C4: after a submission with exactly two checked add-on selectors
whose variant identifiers are `v1` and `v2` in capture order, an accepted
notification produces exactly one append request, whose body is exactly
`[{id: v1, quantity: 1}, {id: v2, quantity: 1}]` in that order. -/
theorem C4_append_body (s : CtrlState) (cb1 cb2 : CheckedBox) (c1 c2 : AddonContainer)
    (v1 v2 : String) (ev : CartEvent) (checked2 : List CheckedBox)
    (appendOk : Bool) (now : Nat) (fetched : Option Nat)
    (h1 : cb1.container = some c1) (hv1 : c1.addonVariantId = some v1)
    (h2 : cb2.container = some c2) (hv2 : c2.addonVariantId = some v2)
    (hacc : isAddToCartEvent ev = true)
    (hflag : s.isProcessingAddons = false)
    (hfresh : ∀ d eid, ev.detail = some d → d.eventId = some eid →
        eid ∉ s.processedEventIds) :
    ∃ s2, onCartUpdateSync (handleFormSubmit s [cb1, cb2]) ev checked2
        = (s2, some [⟨c1.addonProductId, some v1, c1.addonPrice⟩,
            ⟨c2.addonProductId, some v2, c2.addonPrice⟩])
      ∧ (handleCartAddRun s2
          [⟨c1.addonProductId, some v1, c1.addonPrice⟩,
            ⟨c2.addonProductId, some v2, c2.addonPrice⟩]
          appendOk now fetched).2.filter isAppendEffect
        = [Effect.appendToCart [⟨some v1, 1⟩, ⟨some v2, 1⟩]] := by
  have hcap : getCheckedAddons [cb1, cb2]
      = [⟨c1.addonProductId, some v1, c1.addonPrice⟩,
          ⟨c2.addonProductId, some v2, c2.addonPrice⟩] := by
    simp [getCheckedAddons, h1, h2, hv1, hv2]
  have hstore := @handleFormSubmit_store s [cb1, cb2] (by rw [hcap]; simp)
  rw [hstore, hcap]
  obtain ⟨s2, hs2⟩ := @sync_accept
    { s with pendingAddons := some [⟨c1.addonProductId, some v1, c1.addonPrice⟩, ⟨c2.addonProductId, some v2, c2.addonPrice⟩] }
    ev checked2
    [⟨c1.addonProductId, some v1, c1.addonPrice⟩, ⟨c2.addonProductId, some v2, c2.addonPrice⟩]
    hacc (by simp [hflag]) rfl (by simp)
    (fun d eid hd heid => by simpa using hfresh d eid hd heid)
  refine ⟨s2, hs2, ?_⟩
  rw [run_append_effects]
  simp [addonItems]

/-- Claim C4, witness: the append body at concrete variant identifiers
`"v1"`, `"v2"`. -/
theorem C4_append_body_witness :
    ∃ s2, onCartUpdateSync
        (handleFormSubmit initialState
          [⟨some ⟨some "pa", some "v1", some "10"⟩⟩, ⟨some ⟨some "pb", some "v2", some "20"⟩⟩])
        ⟨some ⟨some "e4", some ⟨some "product-form-component", false, some "pm"⟩⟩⟩ []
        = (s2, some [⟨some "pa", some "v1", some "10"⟩, ⟨some "pb", some "v2", some "20"⟩])
      ∧ (handleCartAddRun s2
          [⟨some "pa", some "v1", some "10"⟩, ⟨some "pb", some "v2", some "20"⟩]
          true 0 none).2.filter isAppendEffect
        = [Effect.appendToCart [⟨some "v1", 1⟩, ⟨some "v2", 1⟩]] :=
  C4_append_body initialState
    ⟨some ⟨some "pa", some "v1", some "10"⟩⟩ ⟨some ⟨some "pb", some "v2", some "20"⟩⟩
    ⟨some "pa", some "v1", some "10"⟩ ⟨some "pb", some "v2", some "20"⟩
    "v1" "v2"
    ⟨some ⟨some "e4", some ⟨some "product-form-component", false, some "pm"⟩⟩⟩ []
    true 0 none rfl rfl rfl rfl (by decide) rfl
    (fun d eid hd heid => by simp [initialState])

/-- Claim C7: when the append call fails, the failure handling emits
exactly one user-visible error notification and exactly one append request
(no retry); the notification insertion adds exactly one element to the
page, its removal is scheduled after the fixed 5000 ms display duration,
and the removal timer takes it off the page again. -/
theorem C7_failure_notification (s : CtrlState) (addons : List AddonSelection)
    (now : Nat) (fetched : Option Nat) (page : List Nat) (nid : Nat)
    (hfresh : nid ∉ page) :
    (handleCartAddRun s addons false now fetched).2.filter isShowError
        = [Effect.showError ADDON_ERROR_MESSAGE]
    ∧ (handleCartAddRun s addons false now fetched).2.filter isAppendEffect
        = [Effect.appendToCart (addonItems addons)]
    ∧ (showErrorMessage page nid).1 = page ++ [nid]
    ∧ (showErrorMessage page nid).2 = NOTIFICATION_TIMEOUT_MS
    ∧ notificationTimeout (showErrorMessage page nid).1 nid = page := by
  refine ⟨?_, run_append_effects s addons false now fetched, rfl, rfl, ?_⟩
  · simp [handleCartAddRun, isShowError]
  · unfold notificationTimeout showErrorMessage
    dsimp only
    rw [if_pos (by simp), List.erase_append_right _ hfresh]
    simp

/-- Claim C7, witness: the failure effects at a concrete failing run and a
concrete page. -/
theorem C7_failure_notification_witness :
    (handleCartAddRun initialState [⟨some "p1", some "v1", some "5"⟩] false 0 none).2.filter
        isShowError = [Effect.showError ADDON_ERROR_MESSAGE]
    ∧ (handleCartAddRun initialState [⟨some "p1", some "v1", some "5"⟩] false 0 none).2.filter
        isAppendEffect
      = [Effect.appendToCart (addonItems [⟨some "p1", some "v1", some "5"⟩])]
    ∧ (showErrorMessage [7] 3).1 = [7] ++ [3]
    ∧ (showErrorMessage [7] 3).2 = NOTIFICATION_TIMEOUT_MS
    ∧ notificationTimeout (showErrorMessage [7] 3).1 3 = [7] :=
  C7_failure_notification initialState [⟨some "p1", some "v1", some "5"⟩] 0 none [7] 3
    (by decide)

/-- Claim C8: a failed append leaves the pending set exactly as it was
(it is cleared only on the success path), so the same captured selections
are still pending and the next accepted notification resolves the very same
add-on list again. -/
theorem C8_failure_keeps_pending (s : CtrlState) (addons : List AddonSelection)
    (now : Nat) (fetched : Option Nat) (ev : CartEvent) (checked : List CheckedBox)
    (hpend : s.pendingAddons = some addons) (hne : addons ≠ [])
    (hacc : isAddToCartEvent ev = true)
    (hfresh : ∀ d eid, ev.detail = some d → d.eventId = some eid →
        eid ∉ s.processedEventIds) :
    (handleCartAddRun s addons false now fetched).1.pendingAddons = some addons
    ∧ ∃ s2, onCartUpdateSync (handleCartAddRun s addons false now fetched).1 ev checked
        = (s2, some addons) := by
  have hrun : (handleCartAddRun s addons false now fetched).1
      = { s with isProcessingAddons := false } := rfl
  rw [hrun]
  refine ⟨by simp [hpend], ?_⟩
  exact sync_accept hacc rfl (by simp [hpend]) hne
    (fun d eid hd heid => by simpa using hfresh d eid hd heid)

/-- Claim C8, witness: a concrete failed run keeps its one pending add-on,
which the next accepted notification resolves again. -/
theorem C8_failure_keeps_pending_witness :
    (handleCartAddRun ⟨some [⟨some "p1", some "v1", some "5"⟩], true, [], 0⟩
        [⟨some "p1", some "v1", some "5"⟩] false 0 none).1.pendingAddons
      = some [⟨some "p1", some "v1", some "5"⟩]
    ∧ ∃ s2, onCartUpdateSync
        (handleCartAddRun ⟨some [⟨some "p1", some "v1", some "5"⟩], true, [], 0⟩
          [⟨some "p1", some "v1", some "5"⟩] false 0 none).1
        ⟨some ⟨some "e8", some ⟨some "product-form-component", false, some "pm"⟩⟩⟩ []
        = (s2, some [⟨some "p1", some "v1", some "5"⟩]) :=
  C8_failure_keeps_pending ⟨some [⟨some "p1", some "v1", some "5"⟩], true, [], 0⟩
    [⟨some "p1", some "v1", some "5"⟩] 0 none
    ⟨some ⟨some "e8", some ⟨some "product-form-component", false, some "pm"⟩⟩⟩ []
    rfl (by decide) (by decide) (fun d eid hd heid => by simp)

end ProductAddon
